import Mathlib

/-!
Verification of the exchange-ews-connector core against its design
specification.

The Lean definitions below are shallow embeddings of the Python modules
under src/exchange-ews-connector/modules: the DynamoDB tracking client
(dynamodb_client.py), the sync-job coordinator (sync_job_coordinator.py),
the Q Business client (qbusiness_client.py) and the batching pipeline
(email_processor.py).  Machine timestamps are modelled as natural-number
seconds; DynamoDB tables are modelled as lists of records; calls to
external services are parameterised by their observable outcomes.
-/

namespace Tracking

/--
One item of the processed-email tracking table, as written by
DynamoDBClient.mark_email_processed (dynamodb_client.py lines 166-207).
The table key schema (dynamodb_client.py lines 52-69) has the single
HASH attribute email_id; folder_name, status and the other fields are
plain attributes.
-/
structure TrackedRecord where
  email_id : String
  folder_name : String
  datetime_created : String
  processed_at : String
  status : String
  account_email : String
  attempt_count : Nat
deriving Repr, DecidableEq

abbrev TrackingTable := List TrackedRecord

/-- Key type of a DynamoDB key schema element. -/
inductive KeyType where
  | hash
  | range
deriving Repr, DecidableEq

/-- One element of a DynamoDB KeySchema. -/
structure KeySchemaElement where
  attribute_name : String
  key_type : KeyType
deriving Repr, DecidableEq

/--
The KeySchema passed to create_table by DynamoDBClient._create_table
(dynamodb_client.py lines 52-59): a single HASH key on email_id and no
RANGE key.  The account_email attribute appears only in a global
secondary index, not in the primary key.
-/
def create_table_key_schema : List KeySchemaElement :=
  [{ attribute_name := "email_id", key_type := KeyType.hash }]

/--
The key schema the design specification describes for TrackedItem:
accountId as the partition (HASH) key and the composite
folderPath#itemId as the sort (RANGE) key.  This definition follows the
words of the spec, for comparison with create_table_key_schema; it is
also the key shape that email_processor._delete_email_record_by_scan
(email_processor.py lines 111-114) passes to delete_item.
-/
def spec_tracked_item_key_schema : List KeySchemaElement :=
  [{ attribute_name := "account_email", key_type := KeyType.hash },
   { attribute_name := "folder_email_key", key_type := KeyType.range }]

/--
DynamoDBClient.mark_email_processed (dynamodb_client.py lines 166-207):
an update_item keyed only by email_id, with
attempt_count = if_not_exists(attempt_count, 0) + 1 and every other
attribute overwritten.  update_item updates the item with the given key
in place when it exists and creates it otherwise.
-/
def mark_email_processed (table : TrackingTable) (email_id folder_name datetime_created : String)
    (status : String) (account_email : Option String) (now : String) : TrackingTable :=
  if table.any (fun r => r.email_id == email_id) then
    table.map (fun r =>
      if r.email_id == email_id then
        { email_id := r.email_id
          folder_name := folder_name
          datetime_created := datetime_created
          processed_at := now
          status := status
          account_email := account_email.getD "unknown"
          attempt_count := r.attempt_count + 1 }
      else r)
  else
    table ++ [{ email_id := email_id
                folder_name := folder_name
                datetime_created := datetime_created
                processed_at := now
                status := status
                account_email := account_email.getD "unknown"
                attempt_count := 1 }]

/--
DynamoDBClient.get_processed_email_ids_for_folder (dynamodb_client.py
lines 209-236): a full-table scan filtered on the folder_name attribute
alone.  The method takes no account parameter, so ids of every account
sharing the folder name are returned together.
-/
def get_processed_email_ids_for_folder (table : TrackingTable) (folder_name : String) :
    List String :=
  (table.filter (fun r => r.folder_name == folder_name)).map (fun r => r.email_id)

/-- Number of records in the table carrying a given email_id. -/
def record_count (table : TrackingTable) (email_id : String) : Nat :=
  table.countP (fun r => r.email_id == email_id)

/-- attempt_count of the first record with the given email_id, 0 when absent. -/
def attempt_of (table : TrackingTable) (email_id : String) : Nat :=
  ((table.find? (fun r => r.email_id == email_id)).map (fun r => r.attempt_count)).getD 0

end Tracking

namespace Coord

/--
Abstraction of the last_heartbeat string stored in the sync coordination
table (sync_job_coordinator.py).  The Python code only ever distinguishes
three cases of the stored string: the empty string (the truthiness guard
`if last_heartbeat_str:` skips the record), a string datetime.fromisoformat
rejects with ValueError, and a well-formed timestamp, which we carry as
its value in whole seconds.
-/
inductive Heartbeat where
  | iso (t : Nat)
  | invalid
  | empty
deriving Repr, DecidableEq

/-- datetime.fromisoformat: a well-formed timestamp parses to its value;
the empty string and malformed strings raise ValueError (here: none). -/
def parse_heartbeat : Heartbeat → Option Nat
  | Heartbeat.iso t => some t
  | Heartbeat.invalid => none
  | Heartbeat.empty => none

/-- The truthiness guard `if last_heartbeat_str:` in the Python loops. -/
def heartbeat_nonempty : Heartbeat → Bool
  | Heartbeat.empty => false
  | _ => true

/--
One record of the coordination table (job_type is the partition key,
job_id the sort key; sync_job_coordinator.py lines 65-86).  SYNC_JOB
records use the Q Business execution id as job_id; CONTAINER records use
"syncJobId#containerId".  Owner and status attributes are not read by the
functions modelled here and are elided.
-/
structure LeaseEntry where
  job_type : String
  job_id : String
  last_heartbeat : Heartbeat
deriving Repr, DecidableEq

/-- Liveness test used by get_active_sync_job and get_active_containers
(sync_job_coordinator.py lines 356-371 and 250-265): the record counts as
active only when its heartbeat parses and is less than 600 seconds old.
Subtraction over Nat agrees with the Python real-valued difference for the
nonnegative timestamps modelled here. -/
def is_live_heartbeat (hb : Heartbeat) (now : Nat) : Bool :=
  if heartbeat_nonempty hb then
    match parse_heartbeat hb with
    | some t => decide (now - t < 600)
    | none => false
  else false

/-- Staleness test of cleanup_stale_registrations (sync_job_coordinator.py
lines 582-591): records whose nonempty heartbeat is older than
now - 600 seconds, or fails to parse, are collected for deletion; records
with an empty heartbeat string never enter the stale list. -/
def is_stale_for_cleanup (hb : Heartbeat) (now : Nat) : Bool :=
  if heartbeat_nonempty hb then
    match parse_heartbeat hb with
    | some t => decide (t < now - 600)
    | none => true
  else false

/--
SyncJobCoordinator.get_active_sync_job (lines 336-378): query all
SYNC_JOB records and return the first live one; stale records met on the
way are deleted as a side effect and nothing is returned when no record
is live.
-/
def get_active_sync_job (table : List LeaseEntry) (now : Nat) : Option LeaseEntry :=
  (table.filter (fun e => e.job_type == "SYNC_JOB")).find?
    (fun e => is_live_heartbeat e.last_heartbeat now)

/--
SyncJobCoordinator.cleanup_stale_registrations (lines 570-608): scan the
whole table and delete every record whose heartbeat is stale under
is_stale_for_cleanup; equivalently, keep exactly the records that are not
collected as stale.
-/
def cleanup_stale_registrations (table : List LeaseEntry) (now : Nat) : List LeaseEntry :=
  table.filter (fun e => !(is_stale_for_cleanup e.last_heartbeat now))

/-- Fresh Q Business execution ids, in the order the external service
grants them within one run. -/
def jobIdOf (n : Nat) : String := "job-" ++ toString n

/-- The CONTAINER record written by register_container (lines 138-150). -/
def container_entry (sync_job_id : String) (container_id : Nat) (now : Nat) : LeaseEntry :=
  { job_type := "CONTAINER"
    job_id := sync_job_id ++ "#" ++ toString container_id
    last_heartbeat := Heartbeat.iso now }

/-- The SYNC_JOB record written by register_sync_job (lines 303-315). -/
def sync_job_entry (job_id : String) (now : Nat) : LeaseEntry :=
  { job_type := "SYNC_JOB"
    job_id := job_id
    last_heartbeat := Heartbeat.iso now }

/-- Shared state visible to every container: the coordination table, the
external sync jobs started at Q Business so far, and the counter feeding
fresh execution ids. -/
structure RunState where
  table : List LeaseEntry
  external_started : List String
  next_job_number : Nat
deriving Repr, DecidableEq

/-- Control point of one container inside start_or_join_sync_job:
checking runs get_active_sync_job; registering holds the execution id of
the externally started job and runs the conditional register_sync_job
write; done carries the returned sync job id. -/
inductive WorkerPhase where
  | checking
  | registering (job_id : String)
  | done (result : Option String)
deriving Repr, DecidableEq

structure WorkerState where
  wid : Nat
  phase : WorkerPhase
deriving Repr, DecidableEq

/--
One atomic step of SyncJobCoordinator.start_or_join_sync_job
(lines 438-491) by one container.

checking: get_active_sync_job finds a live SYNC_JOB record: the container
registers a CONTAINER record for that job id and returns it (join path);
otherwise it starts an external Q Business job, obtaining a fresh
execution id, and moves on to the conditional registration.

registering: the conditional `attribute_not_exists(job_id)` put of
register_sync_job (lines 303-315) is evaluated against the item key
(SYNC_JOB, job_id): it fails only when a SYNC_JOB record with the very
same job_id already exists, in which case the container registers itself
as a CONTAINER for the job id it already holds (lines 480-484); when the
put succeeds, the container writes the SYNC_JOB record and its own
CONTAINER record and returns its id (lines 471-478).
-/
def worker_step (s : RunState) (w : WorkerState) (now : Nat) : RunState × WorkerState :=
  match w.phase with
  | WorkerPhase.checking =>
    match get_active_sync_job s.table now with
    | some active =>
      ({ s with table := s.table ++ [container_entry active.job_id w.wid now] },
       { w with phase := WorkerPhase.done (some active.job_id) })
    | none =>
      let j := jobIdOf s.next_job_number
      ({ s with external_started := s.external_started ++ [j],
                next_job_number := s.next_job_number + 1 },
       { w with phase := WorkerPhase.registering j })
  | WorkerPhase.registering j =>
    if s.table.any (fun e => e.job_type == "SYNC_JOB" && e.job_id == j) then
      ({ s with table := s.table ++ [container_entry j w.wid now] },
       { w with phase := WorkerPhase.done (some j) })
    else
      ({ s with table := s.table ++ [sync_job_entry j now, container_entry j w.wid now] },
       { w with phase := WorkerPhase.done (some j) })
  | WorkerPhase.done _ => (s, w)

/-- Interleaved execution: each schedule entry names the worker that takes
the next atomic step (workers already done keep their state). -/
def run_schedule (s : RunState) (ws : List WorkerState) (sched : List Nat) (now : Nat) :
    RunState × List WorkerState :=
  match sched with
  | [] => (s, ws)
  | i :: rest =>
    match ws[i]? with
    | none => run_schedule s ws rest now
    | some w =>
      let (s2, w2) := worker_step s w now
      run_schedule s2 (ws.set i w2) rest now

/-- start_or_join_sync_job run to completion with no interleaving: the two
phases of one container execute back to back. -/
def start_or_join_sync_job (s : RunState) (wid : Nat) (now : Nat) : RunState × Option String :=
  let (s1, w1) := worker_step s { wid := wid, phase := WorkerPhase.checking } now
  let (s2, w2) := worker_step s1 w1 now
  (s2, match w2.phase with
       | WorkerPhase.done r => r
       | _ => none)

/-- Containers calling start_or_join_sync_job one after the other, each
completing before the next begins. -/
def run_sequential (s : RunState) (wids : List Nat) (now : Nat) :
    RunState × List (Option String) :=
  match wids with
  | [] => (s, [])
  | w :: rest =>
    let (s1, r) := start_or_join_sync_job s w now
    let (s2, rs) := run_sequential s1 rest now
    (s2, r :: rs)

/-- Observable outcome of SyncJobCoordinator.stop_sync_job_if_owner. -/
structure StopIfOwnerResult where
  returned : Bool
  stop_requested : Bool
  sync_job_unregistered : Bool
deriving Repr, DecidableEq

/--
SyncJobCoordinator.stop_sync_job_if_owner (lines 493-546).  With no
current job it returns True at once.  Otherwise it always deletes its own
CONTAINER record first (a tracking-store delete, not an index call); a
non-owner then returns True immediately; an owner returns True without
stopping while other containers are live, and only with zero live
containers issues the stop request to Q Business and unregisters the
SYNC_JOB record, returning the outcome of the direct stop.
-/
def stop_sync_job_if_owner (current_sync_job_id : Option String) (is_sync_job_owner : Bool)
    (active_containers : List LeaseEntry) (direct_stop_ok : Bool) : StopIfOwnerResult :=
  match current_sync_job_id with
  | none => { returned := true, stop_requested := false, sync_job_unregistered := false }
  | some _ =>
    if !is_sync_job_owner then
      { returned := true, stop_requested := false, sync_job_unregistered := false }
    else if !active_containers.isEmpty then
      { returned := true, stop_requested := false, sync_job_unregistered := false }
    else
      { returned := direct_stop_ok, stop_requested := true, sync_job_unregistered := true }

end Coord

namespace QB

/-- Result of one start_data_source_sync_job request (qbusiness_client.py
lines 67-73 and 117-123): an execution id, a response with no execution
id, a conflict raise (ConflictException or ValidationException whose
message contains "already syncing"), or any other raise. -/
inductive StartCall where
  | ok (job_id : String)
  | okNoId
  | conflict
  | otherError
deriving Repr, DecidableEq

/-- Events visible at the Q Business API while start_sync_job runs: one
start_data_source_sync_job request, or one whole _stop_existing_sync_jobs
stop-and-wait cycle with its outcome. -/
inductive RunEvent where
  | startReq
  | stopCycle (success : Bool)
deriving Repr, DecidableEq

/--
The conflict-resolution loop of QBusinessClient.start_sync_job
(qbusiness_client.py lines 104-155): at each remaining attempt it first
runs a _stop_existing_sync_jobs cycle; only when that cycle succeeds does
it retry start_data_source_sync_job.  A retry conflict with attempts left
loops again; a retry conflict on the last attempt, any other retry error,
or a response without execution id returns None; a failed stop cycle
retries the resolution while attempts remain.  The parameters starts and
stops give the outcome of the k-th start request and of the k-th stop
cycle of the run; sc and st count those already consumed.
-/
def conflict_loop (starts : Nat → StartCall) (stops : Nat → Bool) :
    Nat → Nat → Nat → Option String × List RunEvent
  | 0, _, _ => (none, [])
  | n+1, sc, st =>
    if stops st then
      match starts sc with
      | StartCall.ok j => (some j, [RunEvent.stopCycle true, RunEvent.startReq])
      | StartCall.okNoId => (none, [RunEvent.stopCycle true, RunEvent.startReq])
      | StartCall.otherError => (none, [RunEvent.stopCycle true, RunEvent.startReq])
      | StartCall.conflict =>
        if n == 0 then (none, [RunEvent.stopCycle true, RunEvent.startReq])
        else
          let r := conflict_loop starts stops n (sc + 1) (st + 1)
          (r.1, RunEvent.stopCycle true :: RunEvent.startReq :: r.2)
    else
      if n == 0 then (none, [RunEvent.stopCycle false])
      else
        let r := conflict_loop starts stops n sc (st + 1)
        (r.1, RunEvent.stopCycle false :: r.2)

/--
QBusinessClient.start_sync_job (qbusiness_client.py lines 51-163).
has_running is the answer of the defensive has_running_sync_jobs probe
(line 59): when jobs are running and auto-resolve is disabled the start
fails before any request.  Otherwise the first start request is issued;
on a conflict, auto-resolve disabled fails immediately with no stop cycle
and no retry, while auto-resolve enabled enters conflict_loop with
max_retries attempts.  Returns the resulting job id and the list of API
events in order.
-/
def start_sync_job (auto_resolve : Bool) (max_retries : Nat) (has_running : Bool)
    (starts : Nat → StartCall) (stops : Nat → Bool) : Option String × List RunEvent :=
  if has_running && !auto_resolve then (none, [])
  else
    match starts 0 with
    | StartCall.ok j => (some j, [RunEvent.startReq])
    | StartCall.okNoId => (none, [RunEvent.startReq])
    | StartCall.otherError => (none, [RunEvent.startReq])
    | StartCall.conflict =>
      if !auto_resolve then (none, [RunEvent.startReq])
      else
        let r := conflict_loop starts stops max_retries 1 0
        (r.1, RunEvent.startReq :: r.2)

/-- The two event shapes one iteration of the resolution loop can emit: a
successful stop cycle followed by a start retry, or a failed stop cycle
alone. -/
def block_of (b : Bool) : List RunEvent :=
  if b then [RunEvent.stopCycle true, RunEvent.startReq] else [RunEvent.stopCycle false]

/-- One entry of the list_data_source_sync_jobs history. -/
structure Job where
  execution_id : String
  job_status : String
deriving Repr, DecidableEq

/-- The in-progress statuses recognised throughout qbusiness_client.py
(lines 178, 233, 382). -/
def is_running_status (s : String) : Bool :=
  s == "SYNCING" || s == "SYNCING_INDEXING"

/-- Outcome of one stop_data_source_sync_job request: accepted, a benign
error (ResourceNotFoundException or ValidationException, counted as
stopped; lines 210-212), or any other error. -/
inductive StopErr where
  | accepted
  | benign
  | hard
deriving Repr, DecidableEq

/-- Observable outcome of _stop_existing_sync_jobs: its return value, how
many stop requests it issued, and how many poll iterations it ran. -/
structure StopOutcome where
  success : Bool
  stop_requests : Nat
  polls : Nat
deriving Repr, DecidableEq

/-- The wait loop of _stop_existing_sync_jobs (lines 221-242): polls every
5 seconds while waited < 60, so at most 12 iterations; each iteration
lists the history again (poll_states i) and stops as soon as no job is in
a running state. -/
def poll_for_stop (poll_states : Nat → List Job) : Nat → Nat → Bool × Nat
  | _, 0 => (false, 0)
  | i, n+1 =>
    if ((poll_states i).filter (fun j => is_running_status j.job_status)).isEmpty then
      (true, 1)
    else
      let r := poll_for_stop poll_states (i + 1) n
      (r.1, r.2 + 1)

/-- max_wait_time 60 seconds at wait_interval 5 seconds (lines 217-218). -/
def max_poll_count : Nat := 12

/--
QBusinessClient._stop_existing_sync_jobs (qbusiness_client.py lines
165-261): list the history, filter the running jobs, return True at once
if none; otherwise issue one stop request per running job, counting
accepted and benign outcomes as stopped; if anything was stopped, poll
(bounded) until no job is running; with nothing stopped return whether
the stopped count matches the running count (false here, since the
running list is nonempty).
-/
def _stop_existing_sync_jobs (jobs : List Job) (stop_errors : Nat → StopErr)
    (poll_states : Nat → List Job) : StopOutcome :=
  let running := jobs.filter (fun j => is_running_status j.job_status)
  if running.isEmpty then
    { success := true, stop_requests := 0, polls := 0 }
  else
    let stopped_count := (List.range running.length).countP
      (fun k => !(stop_errors k == StopErr.hard))
    if 0 < stopped_count then
      let p := poll_for_stop poll_states 0 max_poll_count
      { success := p.1, stop_requests := running.length, polls := p.2 }
    else
      { success := decide (stopped_count = running.length)
        stop_requests := running.length
        polls := 0 }

end QB

namespace Pipeline

/-- One entry of the emails_to_mark list built by the processing loops
(email_processor.py lines 368-374 and 500-506): status is processed when
document creation succeeded upstream and failed otherwise. -/
structure EmailInfo where
  email_id : String
  folder_name : String
  item_status : String
  account_email : String
deriving Repr, DecidableEq

/-- Outcome of the batch_put_documents call inside _submit_document_batch:
either the service accepted the call and reported the listed document ids
as failed, or the call raised. -/
inductive PutOutcome where
  | ok (failed_ids : List String)
  | raised
deriving Repr, DecidableEq

/-- The status precedence of _mark_emails_in_dynamodb (email_processor.py
lines 216-235): whole submission failed, then listed failed document id,
then upstream creation failure, else processed. -/
def final_mark_status (qsf : Bool) (failed_ids : List String) (e : EmailInfo) : String :=
  if qsf then "failed"
  else if failed_ids.contains e.email_id then "failed"
  else if e.item_status == "failed" then "failed"
  else "processed"

/-- EmailProcessor._mark_emails_in_dynamodb (lines 208-248): one
mark_email_processed write per entry, with the final status above. -/
def _mark_emails_in_dynamodb (emails : List EmailInfo) (failed_ids : List String)
    (qsf : Bool) : List (String × String) :=
  emails.map (fun e => (e.email_id, final_mark_status qsf failed_ids e))

/-- EmailProcessor._mark_emails_individually (lines 250-284): the fallback
writes each entry on its own, with the same status condition written as
one disjunction (line 262). -/
def _mark_emails_individually (emails : List EmailInfo) (failed_ids : List String)
    (qsf : Bool) : List (String × String) :=
  emails.map (fun e => (e.email_id,
    if qsf || failed_ids.contains e.email_id || e.item_status == "failed" then "failed"
    else "processed"))

/-- Observable outcome of _submit_document_batch: its return value, the
tracker writes it performed in order (id and final status), the amount it
added to emails_processed_count, whether the per-item fallback ran, and
the ids handed to the index delete and put calls. -/
structure SubmitResult where
  return_value : Bool
  tracker_writes : List (String × String)
  processed_count_delta : Nat
  used_individual_fallback : Bool
  index_delete_docs : List String
  index_put_docs : List (Option String)
deriving Repr, DecidableEq

/--
EmailProcessor._submit_document_batch (email_processor.py lines 141-206).
documents carries doc.get("id") per built document; delete_raises tells
whether the batch_delete_documents call raised (caught at lines 162-164,
submission continues); put_out is the batch_put_documents outcome;
batch_mark_raises tells whether the batch tracker write raised (caught at
lines 201-204, falling back to per-item writes).

With an empty batch and a nonempty mark list, the zero-batch branch
(lines 148-153) marks inside the try and its return then runs the finally
block, which marks the same list a second time; a raise there is caught
by the outer except, which sets the submission-failed flag before the
finally block retries the writes individually.

Otherwise deletes are issued first and best-effort, then the put: on a
clean response the failed ids are collected and successful_count is added
to emails_processed_count (lines 173-176); on a raise the failed set
becomes every document id and the submission-failed flag is set.  The
finally block always writes the tracker entries, and the return value is
the negation of the submission-failed flag (line 206), which partial
per-document failures never set.
-/
def _submit_document_batch (documents : List (Option String)) (documents_to_delete : List String)
    (emails_to_mark : List EmailInfo) (put_out : PutOutcome) (delete_raises : Bool)
    (batch_mark_raises : Bool) : SubmitResult :=
  if documents.length + documents_to_delete.length == 0 then
    if emails_to_mark.isEmpty then
      { return_value := true, tracker_writes := [], processed_count_delta := 0,
        used_individual_fallback := false, index_delete_docs := [], index_put_docs := [] }
    else if batch_mark_raises then
      { return_value := false
        tracker_writes := _mark_emails_individually emails_to_mark [] true
        processed_count_delta := 0
        used_individual_fallback := true
        index_delete_docs := [], index_put_docs := [] }
    else
      { return_value := true
        tracker_writes := _mark_emails_in_dynamodb emails_to_mark [] false ++
          _mark_emails_in_dynamodb emails_to_mark [] false
        processed_count_delta := 0
        used_individual_fallback := false
        index_delete_docs := [], index_put_docs := [] }
  else
    let qsf := match put_out with
      | PutOutcome.ok _ => false
      | PutOutcome.raised => !documents.isEmpty
    let failed_ids := if documents.isEmpty then [] else
      match put_out with
      | PutOutcome.ok failed => failed
      | PutOutcome.raised => documents.filterMap id
    let delta := if documents.isEmpty then 0 else
      match put_out with
      | PutOutcome.ok failed => documents.length - failed.length
      | PutOutcome.raised => 0
    let writes := if emails_to_mark.isEmpty then []
      else if batch_mark_raises then _mark_emails_individually emails_to_mark failed_ids qsf
      else _mark_emails_in_dynamodb emails_to_mark failed_ids qsf
    { return_value := !qsf
      tracker_writes := writes
      processed_count_delta := delta
      used_individual_fallback := batch_mark_raises && !emails_to_mark.isEmpty
      index_delete_docs := documents_to_delete
      index_put_docs := documents }

/-- Parameter count of DynamoDBClient.delete_email_record besides self
(dynamodb_client.py line 366: email_id only). -/
def delete_email_record_params : Nat := 1

/-- Argument count email_processor.py line 83 passes to
delete_email_record: email_id, account_email and folder_name. -/
def delete_email_record_args : Nat := 3

/-- Observable outcome of _delete_documents_and_records: the tracking
table afterwards, the ids handed to the index batch delete, and the
returned flag. -/
structure DeleteOutcome where
  tracker : Tracking.TrackingTable
  index_deleted : List String
  success : Bool
deriving Repr, DecidableEq

/--
EmailProcessor._delete_documents_and_records (email_processor.py lines
65-95).  An empty id list returns True at once.  Otherwise the Q Business
batch delete is issued first (qb_delete_ok is its result), then each id
is deleted from the tracking table: with account and folder at hand the
code calls delete_email_record(email_id, account_email, folder_name),
but the client in src declares delete_email_record(self, email_id), so
the first call raises TypeError, the except branch catches it and the
method returns False with no tracker record removed.  Were the arities to
match, the per-key deletes would run and the method would return the
conjunction of the index result and a full tracker delete count.  Without
account and folder the fallback _delete_email_record_by_scan filters on a
folder_email_key attribute no record of this table carries, finds
nothing, and the count check fails as well.
-/
def _delete_documents_and_records (email_ids : List String)
    (account_email folder_name : Option String) (qb_delete_ok : Bool)
    (tracker : Tracking.TrackingTable) : DeleteOutcome :=
  if email_ids.isEmpty then { tracker := tracker, index_deleted := [], success := true }
  else
    match account_email, folder_name with
    | some _, some f =>
      if delete_email_record_args == delete_email_record_params then
        { tracker := tracker.filter
            (fun r => !(email_ids.contains r.email_id && r.folder_name == f))
          index_deleted := email_ids
          success := qb_delete_ok }
      else
        { tracker := tracker, index_deleted := email_ids, success := false }
    | _, _ =>
      { tracker := tracker, index_deleted := email_ids, success := false }

/-- Batch slicing list[i : i + n] used by the orphan cleanup loops; the
fuel starts at the list length, which bounds the number of slices. -/
def chunksOfAux (n : Nat) : Nat → List α → List (List α)
  | 0, _ => []
  | _, [] => []
  | fuel + 1, x :: xs => (x :: xs.take (n - 1)) :: chunksOfAux n fuel (xs.drop (n - 1))

/-- Batch slicing list[i : i + n] used by the orphan cleanup loops. -/
def chunksOf (n : Nat) (l : List α) : List (List α) :=
  chunksOfAux n l.length l

/-- Observable outcome of _find_and_cleanup_folder_orphans. -/
structure OrphanOutcome where
  tracker : Tracking.TrackingTable
  index_deleted : List String
  deleted_count : Nat
deriving Repr, DecidableEq

/--
EmailProcessor._find_and_cleanup_folder_orphans (email_processor.py lines
767-817).  Full-sync mode and missing inputs return 0 untouched.  Items
whose iteration raises (the Exchange error guard at lines 782-788) return
0 with no deletion.  Otherwise the orphan set is the tracked ids minus
the live ids, deleted through _delete_documents_and_records in slices of
at most batch_size = 10, counting a slice only when that call returns
True.
-/
def _find_and_cleanup_folder_orphans (sync_mode : String)
    (processed_ids : Option (List String)) (items : Option (Except Unit (List String)))
    (account_email folder_name : String) (qb_delete_ok : Bool)
    (tracker : Tracking.TrackingTable) : OrphanOutcome :=
  if sync_mode == "full" then { tracker := tracker, index_deleted := [], deleted_count := 0 }
  else
    match processed_ids, items with
    | some pids, some (Except.ok current_ids) =>
      let orphaned := pids.filter (fun i => !(current_ids.contains i))
      if orphaned.isEmpty then { tracker := tracker, index_deleted := [], deleted_count := 0 }
      else
        (chunksOf 10 orphaned).foldl
          (fun acc batch =>
            let d := _delete_documents_and_records batch (some account_email)
              (some folder_name) qb_delete_ok acc.tracker
            { tracker := d.tracker
              index_deleted := acc.index_deleted ++ d.index_deleted
              deleted_count := acc.deleted_count + (if d.success then batch.length else 0) })
          { tracker := tracker, index_deleted := [], deleted_count := 0 }
    | some _, some (Except.error _) =>
      { tracker := tracker, index_deleted := [], deleted_count := 0 }
    | _, _ => { tracker := tracker, index_deleted := [], deleted_count := 0 }

/-- Outcome of one item inside a processing loop: its string id and
whether create_qbusiness_document returned a document. -/
structure ItemOutcome where
  item_id : String
  doc_created : Bool
deriving Repr, DecidableEq

/-- The emails_to_mark entry built per item (email_processor.py lines
366-374 and 497-506). -/
def email_info_of (folder account : String) (it : ItemOutcome) : EmailInfo :=
  { email_id := it.item_id
    folder_name := folder
    item_status := if it.doc_created then "processed" else "failed"
    account_email := account }

/--
EmailProcessor._process_email_batch (email_processor.py lines 477-531),
the per-chunk worker of the threaded mode: builds the documents of its
chunk, calling _increment_processed_count once per created document (line
493), then submits the whole chunk through _submit_document_batch, whose
put branch adds successful_count to the same emails_processed_count
(lines 175-176).  fails selects the document ids the service reports as
failed.  Returns the total this chunk adds to emails_processed_count.
-/
def _process_email_batch (items : List ItemOutcome) (fails : String → Bool)
    (folder account : String) : Nat :=
  let docs := (items.filter (fun it => it.doc_created)).map (fun it => some it.item_id)
  let failed := (docs.filterMap id).filter fails
  let per_item := items.countP (fun it => it.doc_created)
  per_item +
    (_submit_document_batch docs [] (items.map (email_info_of folder account))
      (PutOutcome.ok failed) false false).processed_count_delta

/-- Counter contribution of one _submit_document_batch flush of the
sequential path, for the buffered document ids. -/
def flush_delta (docs : List String) (fails : String → Bool) : Nat :=
  (_submit_document_batch (docs.map some) [] [] (PutOutcome.ok (docs.filter fails))
    false false).processed_count_delta

/-- The buffered loop of _process_emails_sequential (email_processor.py
lines 327-411): created documents accumulate in documents_batch, which is
flushed through _submit_document_batch when it reaches the configured
batch size and once more at the end.  The sequential loop never calls
_increment_processed_count, so the counter only grows by the flush
deltas. -/
def seq_go (cfg : Nat) (fails : String → Bool) :
    List ItemOutcome → List String → Nat → Nat
  | [], buf, acc => acc + flush_delta buf fails
  | it :: rest, buf, acc =>
    let buf2 := if it.doc_created then buf ++ [it.item_id] else buf
    if cfg ≤ buf2.length then seq_go cfg fails rest [] (acc + flush_delta buf2 fails)
    else seq_go cfg fails rest buf2 acc

/-- Total added to emails_processed_count by _process_emails_sequential
over the given items. -/
def _process_emails_sequential (cfg : Nat) (items : List ItemOutcome)
    (fails : String → Bool) : Nat :=
  seq_go cfg fails items [] 0

/-- Following the words of the specification, for comparison with the
code: the whole upsert call failed outright, meaning the
batch_put_documents call was made (there were documents) and raised. -/
def claim_upsert_call_failed (documents : List (Option String)) (put_out : PutOutcome) : Bool :=
  !documents.isEmpty &&
    (match put_out with
     | PutOutcome.raised => true
     | PutOutcome.ok _ => false)

/-- Following the words of the specification: the failed-document list the
service reported, empty when no upsert call was made or the call raised
instead of answering. -/
def claim_service_failed_list (documents : List (Option String)) (put_out : PutOutcome) :
    List String :=
  if documents.isEmpty then []
  else
    match put_out with
    | PutOutcome.ok failed => failed
    | PutOutcome.raised => []

/-- The final tracking status the specification prescribes for an item,
by the stated precedence: whole upsert call failed outright, then the
document id appearing in the service failed list, then the item having
produced no document upstream, else processed. -/
def claim_tracking_status (documents : List (Option String)) (put_out : PutOutcome)
    (e : EmailInfo) : String :=
  if claim_upsert_call_failed documents put_out then "failed"
  else if (claim_service_failed_list documents put_out).contains e.email_id then "failed"
  else if e.item_status == "failed" then "failed"
  else "processed"

end Pipeline

namespace Tracking

/-- The update branch of mark_email_processed rewrites records in place and
never changes an email_id, so per-key record counts are preserved. -/
theorem countP_map_preserving (l : TrackingTable) (g : TrackedRecord → TrackedRecord)
    (i : String) (hid : ∀ r, (g r).email_id = r.email_id) :
    (l.map g).countP (fun r => r.email_id == i) = l.countP (fun r => r.email_id == i) := by
  rw [List.countP_map]
  apply List.countP_congr
  intro r _
  simp [Function.comp, hid]

theorem record_count_mark (table : TrackingTable) (i f d st : String) (a : Option String)
    (n : String) (h : record_count table i ≤ 1) :
    record_count (mark_email_processed table i f d st a n) i = 1 := by
  unfold mark_email_processed
  by_cases hany : table.any (fun r => r.email_id == i) = true
  · simp only [hany, if_true]
    unfold record_count at *
    rw [countP_map_preserving]
    · have h1 : 0 < table.countP (fun r => r.email_id == i) := by
        rw [List.any_eq_true] at hany
        obtain ⟨r, hr, hp⟩ := hany
        exact List.countP_pos_iff.mpr ⟨r, hr, hp⟩
      omega
    · intro r
      by_cases hri : r.email_id == i <;> simp [hri]
  · rw [Bool.not_eq_true] at hany
    simp only [hany, Bool.false_eq_true, if_false]
    unfold record_count at *
    have h0 : table.countP (fun r => r.email_id == i) = 0 := by
      by_contra hne
      have hpos : 0 < table.countP (fun r => r.email_id == i) := Nat.pos_of_ne_zero hne
      rw [List.countP_pos_iff] at hpos
      obtain ⟨r, hr, hp⟩ := hpos
      have htrue : table.any (fun r => r.email_id == i) = true :=
        List.any_eq_true.mpr ⟨r, hr, hp⟩
      rw [hany] at htrue
      exact Bool.false_ne_true htrue
    rw [List.countP_append, h0]
    simp

theorem mark_cons_ne (r : TrackedRecord) (rest : TrackingTable) (i f d st : String)
    (a : Option String) (n : String) (h : ¬ (r.email_id = i)) :
    mark_email_processed (r :: rest) i f d st a n = r :: mark_email_processed rest i f d st a n := by
  unfold mark_email_processed
  have hbeq : (r.email_id == i) = false := by
    simp [h]
  by_cases hrest : rest.any (fun x => x.email_id == i) = true
  · simp [List.any_cons, hbeq, hrest, h]
  · simp [List.any_cons, hbeq, hrest, h]

theorem attempt_of_mark (table : TrackingTable) (i f d st : String) (a : Option String)
    (n : String) (h : record_count table i ≤ 1) :
    attempt_of (mark_email_processed table i f d st a n) i = attempt_of table i + 1 := by
  induction table with
  | nil =>
    simp [mark_email_processed, attempt_of]
  | cons r rest ih =>
    by_cases hr : r.email_id = i
    · have hbeq : (r.email_id == i) = true := by simp [hr]
      have hany : ((r :: rest).any fun x => x.email_id == i) = true := by
        simp [List.any_cons, hbeq]
      simp only [mark_email_processed, hany, if_true, List.map_cons, hbeq, if_true]
      simp only [attempt_of]
      rw [List.find?_cons_of_pos, List.find?_cons_of_pos]
      · simp
      · exact hbeq
      · exact hbeq
    · have hbeq : (r.email_id == i) = false := by simp [hr]
      rw [mark_cons_ne r rest i f d st a n hr]
      have hcount : record_count rest i ≤ 1 := by
        unfold record_count at *
        rw [List.countP_cons] at h
        omega
      simp only [attempt_of]
      rw [List.find?_cons_of_neg, List.find?_cons_of_neg]
      · exact ih hcount
      · simp [hbeq]
      · simp [hbeq]

end Tracking

/--
Claim C6: submitting the same item twice with the same id, folder and
account never creates two tracking records (the single record is updated
in place), and attempt_count grows strictly on every write.  The
hypothesis states that the table holds at most one record for the id, the
invariant every table reachable through mark_email_processed satisfies.
-/
theorem c6_idempotent_tracking (table : Tracking.TrackingTable)
    (i f d1 st1 d2 st2 : String) (a : Option String) (n1 n2 : String)
    (h : Tracking.record_count table i ≤ 1) :
    Tracking.record_count
      (Tracking.mark_email_processed
        (Tracking.mark_email_processed table i f d1 st1 a n1) i f d2 st2 a n2) i = 1 ∧
    Tracking.attempt_of (Tracking.mark_email_processed table i f d1 st1 a n1) i =
      Tracking.attempt_of table i + 1 ∧
    Tracking.attempt_of
      (Tracking.mark_email_processed
        (Tracking.mark_email_processed table i f d1 st1 a n1) i f d2 st2 a n2) i =
      Tracking.attempt_of (Tracking.mark_email_processed table i f d1 st1 a n1) i + 1 ∧
    Tracking.attempt_of table i <
      Tracking.attempt_of (Tracking.mark_email_processed table i f d1 st1 a n1) i ∧
    Tracking.attempt_of (Tracking.mark_email_processed table i f d1 st1 a n1) i <
      Tracking.attempt_of
        (Tracking.mark_email_processed
          (Tracking.mark_email_processed table i f d1 st1 a n1) i f d2 st2 a n2) i := by
  have h1 := Tracking.record_count_mark table i f d1 st1 a n1 h
  have h1le : Tracking.record_count (Tracking.mark_email_processed table i f d1 st1 a n1) i ≤ 1 := by
    rw [h1]
  have h2 := Tracking.record_count_mark
    (Tracking.mark_email_processed table i f d1 st1 a n1) i f d2 st2 a n2 h1le
  have ha1 := Tracking.attempt_of_mark table i f d1 st1 a n1 h
  have ha2 := Tracking.attempt_of_mark
    (Tracking.mark_email_processed table i f d1 st1 a n1) i f d2 st2 a n2 h1le
  exact ⟨h2, ha1, ha2, by omega, by omega⟩

/-- Witness for C6 at a concrete input: the empty table, one item marked
twice. -/
theorem c6_idempotent_tracking_witness :
    Tracking.record_count ([] : Tracking.TrackingTable) "m1" ≤ 1 ∧
    Tracking.record_count
      (Tracking.mark_email_processed
        (Tracking.mark_email_processed [] "m1" "Inbox" "2024-01-01" "processed"
          (some "a@x.com") "t1") "m1" "Inbox" "2024-01-02" "processed"
        (some "a@x.com") "t2") "m1" = 1 :=
  ⟨by decide,
   (c6_idempotent_tracking [] "m1" "Inbox" "2024-01-01" "processed" "2024-01-02" "processed"
     (some "a@x.com") "t1" "t2" (by decide)).1⟩

/--
Claim C5 (code bug): the tracking table in src is keyed by email_id as a
single HASH attribute with no RANGE key, not by the
(accountId, folderPath#itemId) composite the specification and the
callers in email_processor.py expect, and the per-folder read is an
unscoped scan on folder_name that mixes the items of different accounts,
so per-account prefix-range retrieval does not exist.  Evaluated here on
a table holding one Inbox item for each of two accounts.
-/
theorem c5_key_schema_of_src_client :
    Tracking.create_table_key_schema =
      [{ attribute_name := "email_id", key_type := Tracking.KeyType.hash }] ∧
    Tracking.create_table_key_schema ≠ Tracking.spec_tracked_item_key_schema ∧
    (Tracking.create_table_key_schema.filter
      (fun e => e.key_type == Tracking.KeyType.range)) = [] ∧
    Tracking.get_processed_email_ids_for_folder
      [{ email_id := "m1", folder_name := "Inbox", datetime_created := "", processed_at := "",
         status := "processed", account_email := "a@x.com", attempt_count := 1 },
       { email_id := "m2", folder_name := "Inbox", datetime_created := "", processed_at := "",
         status := "processed", account_email := "b@x.com", attempt_count := 1 }]
      "Inbox" = ["m1", "m2"] := by
  refine ⟨rfl, by decide, by decide, by decide⟩

/--
Claim C7: a worker that is not the owner of the current sync job never
issues a stop request to the index service from stop_sync_job_if_owner
and always returns True, whatever the job id, the container list and the
direct-stop outcome.
-/
theorem c7_non_owner_never_stops (current : Option String) (owner : Bool)
    (containers : List Coord.LeaseEntry) (direct_ok : Bool) (h : owner = false) :
    (Coord.stop_sync_job_if_owner current owner containers direct_ok).stop_requested = false ∧
    (Coord.stop_sync_job_if_owner current owner containers direct_ok).returned = true := by
  subst h
  cases current <;> simp [Coord.stop_sync_job_if_owner]

/-- Witness for C7 at a concrete input: a non-owner holding a job id, with
another live container present and a failing direct stop. -/
theorem c7_non_owner_never_stops_witness :
    (Coord.stop_sync_job_if_owner (some "job-1") false
      [Coord.container_entry "job-1" 2 1000] false).stop_requested = false ∧
    (Coord.stop_sync_job_if_owner (some "job-1") false
      [Coord.container_entry "job-1" 2 1000] false).returned = true :=
  c7_non_owner_never_stops (some "job-1") false [Coord.container_entry "job-1" 2 1000] false rfl

/--
Claim C1 counterexample: two workers race start_or_join_sync_job against
the empty lease table; the schedule lets both run get_active_sync_job
before either registers.  Both observe no live SYNC_JOB record, both
start an external Q Business job, and both conditional writes succeed,
because attribute_not_exists(job_id) is evaluated per item key and the
two execution ids differ.  Two external sync jobs are started and the
workers end up referencing different job ids, refuting the claim as
stated.
-/
theorem c1_race_counterexample :
    (Coord.run_schedule { table := [], external_started := [], next_job_number := 0 }
      [{ wid := 0, phase := Coord.WorkerPhase.checking },
       { wid := 1, phase := Coord.WorkerPhase.checking }]
      [0, 1, 0, 1] 1000).1.external_started = ["job-0", "job-1"] ∧
    (Coord.run_schedule { table := [], external_started := [], next_job_number := 0 }
      [{ wid := 0, phase := Coord.WorkerPhase.checking },
       { wid := 1, phase := Coord.WorkerPhase.checking }]
      [0, 1, 0, 1] 1000).2 =
      [{ wid := 0, phase := Coord.WorkerPhase.done (some "job-0") },
       { wid := 1, phase := Coord.WorkerPhase.done (some "job-1") }] ∧
    ("job-0" : String) ≠ "job-1" := by
  refine ⟨by decide, by decide, by decide⟩

theorem start_or_join_from_empty (w0 now : Nat) :
    Coord.start_or_join_sync_job
      { table := [], external_started := [], next_job_number := 0 } w0 now =
    ({ table := [Coord.sync_job_entry "job-0" now, Coord.container_entry "job-0" w0 now],
       external_started := ["job-0"], next_job_number := 1 }, some "job-0") := rfl

theorem filter_sync_append_container (t : List Coord.LeaseEntry) (j : String) (c now : Nat) :
    ((t ++ [Coord.container_entry j c now]).filter
      (fun e => e.job_type == "SYNC_JOB")) =
    t.filter (fun e => e.job_type == "SYNC_JOB") := by
  rw [List.filter_append]
  have hc : (("CONTAINER" : String) == "SYNC_JOB") = false := rfl
  simp [Coord.container_entry, hc]

theorem start_or_join_join (s : Coord.RunState) (wid now : Nat) (j : String)
    (h : s.table.filter (fun e => e.job_type == "SYNC_JOB") =
      [Coord.sync_job_entry j now]) :
    Coord.start_or_join_sync_job s wid now =
    ({ s with table := s.table ++ [Coord.container_entry j wid now] }, some j) := by
  have hactive : Coord.get_active_sync_job s.table now = some (Coord.sync_job_entry j now) := by
    unfold Coord.get_active_sync_job
    rw [h]
    simp [Coord.is_live_heartbeat, Coord.parse_heartbeat, Coord.heartbeat_nonempty,
      Coord.sync_job_entry, Nat.sub_self]
  unfold Coord.start_or_join_sync_job Coord.worker_step
  rw [hactive]
  simp [Coord.sync_job_entry]

theorem run_sequential_joined (wids : List Nat) (s : Coord.RunState) (now : Nat) (j : String)
    (h : s.table.filter (fun e => e.job_type == "SYNC_JOB") =
      [Coord.sync_job_entry j now]) :
    (Coord.run_sequential s wids now).1.external_started = s.external_started ∧
    ∀ r ∈ (Coord.run_sequential s wids now).2, r = some j := by
  induction wids generalizing s with
  | nil => simp [Coord.run_sequential]
  | cons w ws ih =>
    rw [Coord.run_sequential, start_or_join_join s w now j h]
    have h1 : ({ s with table := s.table ++ [Coord.container_entry j w now]} :
        Coord.RunState).table.filter (fun e => e.job_type == "SYNC_JOB") =
        [Coord.sync_job_entry j now] := by
      simp only []
      rw [filter_sync_append_container, h]
    obtain ⟨e1, e2⟩ := ih { s with table := s.table ++ [Coord.container_entry j w now] } h1
    constructor
    · simpa using e1
    · intro r hr
      simp only [List.mem_cons] at hr
      rcases hr with hr | hr
      · exact hr
      · exact e2 r hr

/--
Claim C1 amended: when start_or_join_sync_job calls do not interleave
(each worker completes before the next begins, within one heartbeat
window), exactly one external sync job is started and every worker
references that single job id; the serialization the claim attributes to
the conditional write holds only in this uncontended case, as the race in
the counterexample starts one external job per concurrently checking
worker.  The first worker from the empty lease table starts and registers
job-0, and every subsequent worker joins it.
-/
theorem c1_sequential_single_job (w0 : Nat) (wids : List Nat) (now : Nat) :
    (Coord.run_sequential { table := [], external_started := [], next_job_number := 0 }
      (w0 :: wids) now).1.external_started = ["job-0"] ∧
    ∀ r ∈ (Coord.run_sequential { table := [], external_started := [], next_job_number := 0 }
      (w0 :: wids) now).2, r = some "job-0" := by
  rw [Coord.run_sequential, start_or_join_from_empty w0 now]
  have h1 : ([Coord.sync_job_entry "job-0" now, Coord.container_entry "job-0" w0 now].filter
      (fun e => e.job_type == "SYNC_JOB")) = [Coord.sync_job_entry "job-0" now] := by
    have hc : (("CONTAINER" : String) == "SYNC_JOB") = false := rfl
    have hs : (("SYNC_JOB" : String) == "SYNC_JOB") = true := rfl
    simp [Coord.sync_job_entry, Coord.container_entry, hc, hs]
  obtain ⟨e1, e2⟩ := run_sequential_joined wids
    { table := [Coord.sync_job_entry "job-0" now, Coord.container_entry "job-0" w0 now],
      external_started := ["job-0"], next_job_number := 1 } now "job-0" h1
  constructor
  · simpa using e1
  · intro r hr
    simp only [List.mem_cons] at hr
    rcases hr with hr | hr
    · exact hr
    · exact e2 r hr

/--
Claim C8 counterexample: a SYNC_JOB record whose last_heartbeat is the
empty string cannot be parsed (datetime.fromisoformat raises ValueError
on it), yet cleanup_stale_registrations keeps it: the truthiness guard
`if last_heartbeat_str:` skips empty heartbeats before any parse, so the
record never enters the stale list.  This refutes the claim that every
record with an unparsable lastHeartbeat is deleted by reapStale.
-/
theorem c8_empty_heartbeat_counterexample :
    Coord.parse_heartbeat Coord.Heartbeat.empty = none ∧
    Coord.cleanup_stale_registrations
      [{ job_type := "SYNC_JOB", job_id := "job-7", last_heartbeat := Coord.Heartbeat.empty }]
      10000 =
      [{ job_type := "SYNC_JOB", job_id := "job-7",
         last_heartbeat := Coord.Heartbeat.empty }] := by
  refine ⟨rfl, by decide⟩

/--
Claim C8 amended: cleanup_stale_registrations deletes every record whose
last_heartbeat is nonempty and either fails to parse or parses to a time
more than 600 seconds before now; records with an empty heartbeat are
skipped by the truthiness guard and survive, but they are never observed
as the active job either.  After reaping a table whose SYNC_JOB records
are all non-live, get_active_sync_job observes no active job and a
subsequent start_or_join_sync_job starts exactly one fresh external job
and returns its id.
-/
theorem c8_stale_reclaim :
    (∀ (table : List Coord.LeaseEntry) (now : Nat) (e : Coord.LeaseEntry),
      e ∈ table →
      Coord.heartbeat_nonempty e.last_heartbeat = true →
      (Coord.parse_heartbeat e.last_heartbeat = none ∨
        ∃ t, Coord.parse_heartbeat e.last_heartbeat = some t ∧ t < now - 600) →
      e ∉ Coord.cleanup_stale_registrations table now) ∧
    (∀ (table : List Coord.LeaseEntry) (now : Nat),
      (∀ e ∈ table, e.job_type = "SYNC_JOB" →
        Coord.is_live_heartbeat e.last_heartbeat now = false) →
      Coord.get_active_sync_job (Coord.cleanup_stale_registrations table now) now = none) ∧
    (∀ (table : List Coord.LeaseEntry) (now k wid : Nat),
      (∀ e ∈ table, e.job_type = "SYNC_JOB" →
        Coord.is_live_heartbeat e.last_heartbeat now = false) →
      (Coord.start_or_join_sync_job
        { table := Coord.cleanup_stale_registrations table now,
          external_started := [], next_job_number := k } wid now).2 =
        some (Coord.jobIdOf k) ∧
      (Coord.start_or_join_sync_job
        { table := Coord.cleanup_stale_registrations table now,
          external_started := [], next_job_number := k } wid now).1.external_started =
        [Coord.jobIdOf k]) := by
  have hstale : ∀ (e : Coord.LeaseEntry) (now : Nat),
      Coord.heartbeat_nonempty e.last_heartbeat = true →
      (Coord.parse_heartbeat e.last_heartbeat = none ∨
        ∃ t, Coord.parse_heartbeat e.last_heartbeat = some t ∧ t < now - 600) →
      Coord.is_stale_for_cleanup e.last_heartbeat now = true := by
    intro e now hne hcase
    unfold Coord.is_stale_for_cleanup
    rw [hne]
    rcases hcase with hnone | ⟨t, ht, hlt⟩
    · simp [hnone]
    · simp [ht, hlt]
  have hactive_none : ∀ (table : List Coord.LeaseEntry) (now : Nat),
      (∀ e ∈ table, e.job_type = "SYNC_JOB" →
        Coord.is_live_heartbeat e.last_heartbeat now = false) →
      Coord.get_active_sync_job (Coord.cleanup_stale_registrations table now) now = none := by
    intro table now h
    unfold Coord.get_active_sync_job
    apply List.find?_eq_none.mpr
    intro e he
    rw [List.mem_filter] at he
    obtain ⟨he1, he2⟩ := he
    unfold Coord.cleanup_stale_registrations at he1
    rw [List.mem_filter] at he1
    have hsync : e.job_type = "SYNC_JOB" := by
      have := he2
      simpa using this
    rw [h e he1.1 hsync]
    simp
  refine ⟨?_, hactive_none, ?_⟩
  · intro table now e he hne hcase hmem
    unfold Coord.cleanup_stale_registrations at hmem
    rw [List.mem_filter] at hmem
    rw [hstale e now hne hcase] at hmem
    simp at hmem
  · intro table now k wid h
    have hnone := hactive_none table now h
    unfold Coord.start_or_join_sync_job Coord.worker_step
    rw [hnone]
    by_cases hc : ((Coord.cleanup_stale_registrations table now).any
        (fun e => e.job_type == "SYNC_JOB" && e.job_id == Coord.jobIdOf k)) = true
    · simp [hc]
    · rw [Bool.not_eq_true] at hc
      simp [hc]

/-- Witness for C8 at a concrete input: a single SYNC_JOB record 9900
seconds stale is reaped, no active job remains, and a fresh job is then
started. -/
theorem c8_stale_reclaim_witness :
    ({ job_type := "SYNC_JOB", job_id := "job-old",
       last_heartbeat := Coord.Heartbeat.iso 100 } : Coord.LeaseEntry) ∉
      Coord.cleanup_stale_registrations
        [{ job_type := "SYNC_JOB", job_id := "job-old",
           last_heartbeat := Coord.Heartbeat.iso 100 }] 10000 ∧
    Coord.get_active_sync_job
      (Coord.cleanup_stale_registrations
        [{ job_type := "SYNC_JOB", job_id := "job-old",
           last_heartbeat := Coord.Heartbeat.iso 100 }] 10000) 10000 = none ∧
    (Coord.start_or_join_sync_job
      { table := Coord.cleanup_stale_registrations
          [{ job_type := "SYNC_JOB", job_id := "job-old",
             last_heartbeat := Coord.Heartbeat.iso 100 }] 10000,
        external_started := [], next_job_number := 5 } 3 10000).2 =
      some (Coord.jobIdOf 5) :=
  ⟨c8_stale_reclaim.1 _ 10000 _ (by decide) (by decide) (Or.inr ⟨100, rfl, by decide⟩),
   c8_stale_reclaim.2.1 _ 10000 (by decide),
   (c8_stale_reclaim.2.2 _ 10000 5 3 (by decide)).1⟩

/-- Counting helper: over a list without duplicates, the number of
elements lying in a duplicate-free sublist equals that sublist's
length. -/
theorem countP_mem_eq_length (ids failed : List String) (h1 : ids.Nodup)
    (h2 : failed.Nodup) (h3 : ∀ x ∈ failed, x ∈ ids) :
    ids.countP (fun x => failed.contains x) = failed.length := by
  rw [List.countP_eq_length_filter]
  have hnod : (ids.filter (fun x => failed.contains x)).Nodup := h1.filter _
  have hmemiff : ∀ x, x ∈ ids.filter (fun x => failed.contains x) ↔ x ∈ failed := by
    intro x
    rw [List.mem_filter]
    constructor
    · rintro ⟨_, hc⟩
      simpa using hc
    · intro hf
      exact ⟨h3 x hf, by simpa⟩
  have h4 : (ids.filter (fun x => failed.contains x)).toFinset = failed.toFinset := by
    ext x
    simp only [List.mem_toFinset]
    exact hmemiff x
  have h5 := List.toFinset_card_of_nodup hnod
  have h6 := List.toFinset_card_of_nodup h2
  rw [h4, h6] at h5
  omega

/--
Claim C2 counterexample: a batch of 10 upserts where the index service
reports documents d0, d1 and d2 as failed.  The tracker receives exactly
7 processed and 3 failed writes, but the return value of
_submit_document_batch is True, not False: partial per-document failures
never set the submission-failed flag, which alone decides the return
value (email_processor.py line 206).
-/
theorem c2_partial_failure_counterexample :
    (let r := Pipeline._submit_document_batch
      ((List.range 10).map (fun n => some ("d" ++ toString n))) []
      ((List.range 10).map (fun n =>
        { email_id := "d" ++ toString n, folder_name := "Inbox",
          item_status := "processed", account_email := "a@x.com" }))
      (Pipeline.PutOutcome.ok ["d0", "d1", "d2"]) false false
    r.tracker_writes.countP (fun w => w.2 == "processed") = 7 ∧
    r.tracker_writes.countP (fun w => w.2 == "failed") = 3 ∧
    r.return_value = true ∧ ¬ (r.return_value = false)) := by
  decide

/--
Claim C2 amended: in a batch of 10 upserts of which the service reports
exactly 3 distinct document ids as failed, _submit_document_batch writes
exactly 7 tracking records with status processed and 3 with status
failed, and returns True: the return value reflects only whether the
upsert call itself failed outright, never per-document failures.
-/
theorem c2_partial_batch_accounting (emails : List Pipeline.EmailInfo) (failed : List String)
    (hstatus : ∀ e ∈ emails, e.item_status = "processed")
    (hnodup : (emails.map (fun e => e.email_id)).Nodup)
    (hfnodup : failed.Nodup)
    (hsub : ∀ x ∈ failed, x ∈ emails.map (fun e => e.email_id))
    (hlen : emails.length = 10) (hflen : failed.length = 3) :
    (Pipeline._submit_document_batch (emails.map (fun e => some e.email_id)) [] emails
      (Pipeline.PutOutcome.ok failed) false false).tracker_writes.countP
        (fun w => w.2 == "failed") = 3 ∧
    (Pipeline._submit_document_batch (emails.map (fun e => some e.email_id)) [] emails
      (Pipeline.PutOutcome.ok failed) false false).tracker_writes.countP
        (fun w => w.2 == "processed") = 7 ∧
    (Pipeline._submit_document_batch (emails.map (fun e => some e.email_id)) [] emails
      (Pipeline.PutOutcome.ok failed) false false).return_value = true := by
  have hdoclen : (emails.map (fun e => some e.email_id)).length = 10 := by
    simp [hlen]
  have hne : emails.isEmpty = false := by
    cases emails with
    | nil => simp at hlen
    | cons a l => rfl
  have hr : Pipeline._submit_document_batch (emails.map (fun e => some e.email_id)) [] emails
      (Pipeline.PutOutcome.ok failed) false false =
      { return_value := true
        tracker_writes := Pipeline._mark_emails_in_dynamodb emails failed false
        processed_count_delta := (emails.map (fun e => some e.email_id)).length - failed.length
        used_individual_fallback := false
        index_delete_docs := []
        index_put_docs := emails.map (fun e => some e.email_id) } := by
    have hnil : emails ≠ [] := by
      intro hcontra
      rw [hcontra] at hlen
      simp at hlen
    unfold Pipeline._submit_document_batch
    rw [hdoclen]
    simp [hne, hnil]
  rw [hr]
  have hwrites : Pipeline._mark_emails_in_dynamodb emails failed false =
      emails.map (fun e => (e.email_id, Pipeline.final_mark_status false failed e)) := rfl
  have hcf : (Pipeline._mark_emails_in_dynamodb emails failed false).countP
      (fun w => w.2 == "failed") =
      emails.countP (fun e => failed.contains e.email_id) := by
    rw [hwrites, List.countP_map]
    apply List.countP_congr
    intro e he
    simp only [Function.comp]
    unfold Pipeline.final_mark_status
    by_cases hc : failed.contains e.email_id
    · have hm : e.email_id ∈ failed := by simpa using hc
      simp [hc, hm]
    · have hm : ¬ (e.email_id ∈ failed) := by simpa using hc
      simp [hc, hm, hstatus e he]
  have hkey : emails.countP (fun e => failed.contains e.email_id) = failed.length := by
    have := countP_mem_eq_length (emails.map (fun e => e.email_id)) failed hnodup hfnodup hsub
    rw [← this, List.countP_map]
    rfl
  have hwlen : (Pipeline._mark_emails_in_dynamodb emails failed false).length = 10 := by
    rw [hwrites]
    simp [hlen]
  have hcp : (Pipeline._mark_emails_in_dynamodb emails failed false).countP
      (fun w => w.2 == "processed") =
      (Pipeline._mark_emails_in_dynamodb emails failed false).countP
      (fun w => ¬ ((fun w : String × String => w.2 == "failed") w)) := by
    apply List.countP_congr
    intro w hw
    rw [hwrites] at hw
    simp only [List.mem_map] at hw
    obtain ⟨e, _, he⟩ := hw
    subst he
    unfold Pipeline.final_mark_status
    by_cases hc : failed.contains e.email_id
    · have hm : e.email_id ∈ failed := by simpa using hc
      simp [hm]
    · have hm : ¬ (e.email_id ∈ failed) := by simpa using hc
      by_cases hs : e.item_status = "failed"
      · simp [hm, hs]
      · simp [hm, hs]
  refine ⟨by rw [hcf, hkey, hflen], ?_, rfl⟩
  rw [hcp]
  have htot := List.length_eq_countP_add_countP (fun w : String × String => w.2 == "failed")
    (l := Pipeline._mark_emails_in_dynamodb emails failed false)
  rw [hwlen] at htot
  rw [hcf, hkey, hflen] at htot
  simp only [Bool.not_eq_true] at htot ⊢
  omega

/-- Witness for C2 at a concrete input: ten documents d0 to d9 of which
d0, d1 and d2 fail at the service. -/
theorem c2_partial_batch_accounting_witness :
    (Pipeline._submit_document_batch
      (((List.range 10).map (fun n =>
        ({ email_id := "d" ++ toString n, folder_name := "Inbox",
           item_status := "processed", account_email := "a@x.com" } :
          Pipeline.EmailInfo))).map (fun e => some e.email_id)) []
      ((List.range 10).map (fun n =>
        ({ email_id := "d" ++ toString n, folder_name := "Inbox",
           item_status := "processed", account_email := "a@x.com" } :
          Pipeline.EmailInfo)))
      (Pipeline.PutOutcome.ok ["d0", "d1", "d2"]) false false).tracker_writes.countP
        (fun w => w.2 == "failed") = 3 :=
  (c2_partial_batch_accounting
    ((List.range 10).map (fun n =>
      ({ email_id := "d" ++ toString n, folder_name := "Inbox",
         item_status := "processed", account_email := "a@x.com" } :
        Pipeline.EmailInfo)))
    ["d0", "d1", "d2"] (by decide) (by decide) (by decide) (by decide)
    (by decide) (by decide)).1

theorem mark_individually_eq_batch (emails : List Pipeline.EmailInfo) (fi : List String)
    (q : Bool) :
    Pipeline._mark_emails_individually emails fi q =
    Pipeline._mark_emails_in_dynamodb emails fi q := by
  unfold Pipeline._mark_emails_individually Pipeline._mark_emails_in_dynamodb
  apply List.map_congr_left
  intro e _
  unfold Pipeline.final_mark_status
  cases q with
  | true => simp
  | false =>
    by_cases hc : fi.contains e.email_id
    · have hm : e.email_id ∈ fi := by simpa using hc
      simp [hm]
    · have hm : ¬ (e.email_id ∈ fi) := by simpa using hc
      by_cases hs : e.item_status = "failed"
      · simp [hm, hs]
      · simp [hm, hs]


theorem final_status_eq_claim (documents : List (Option String))
    (put_out : Pipeline.PutOutcome) (e : Pipeline.EmailInfo) :
    Pipeline.final_mark_status
      (match put_out with
       | Pipeline.PutOutcome.ok _ => false
       | Pipeline.PutOutcome.raised => !documents.isEmpty)
      (if documents.isEmpty then []
       else
         match put_out with
         | Pipeline.PutOutcome.ok failed => failed
         | Pipeline.PutOutcome.raised => documents.filterMap id)
      e =
    Pipeline.claim_tracking_status documents put_out e := by
  cases put_out with
  | ok failed =>
    by_cases hDe : documents.isEmpty
    · unfold Pipeline.final_mark_status Pipeline.claim_tracking_status
        Pipeline.claim_upsert_call_failed Pipeline.claim_service_failed_list
      simp [hDe]
    · unfold Pipeline.final_mark_status Pipeline.claim_tracking_status
        Pipeline.claim_upsert_call_failed Pipeline.claim_service_failed_list
      simp [hDe]
  | raised =>
    by_cases hDe : documents.isEmpty
    · unfold Pipeline.final_mark_status Pipeline.claim_tracking_status
        Pipeline.claim_upsert_call_failed Pipeline.claim_service_failed_list
      simp [hDe]
    · unfold Pipeline.final_mark_status Pipeline.claim_tracking_status
        Pipeline.claim_upsert_call_failed Pipeline.claim_service_failed_list
      simp [hDe]

/--
Claim C4: every item of the tracking list is written with the status
given by the claimed precedence (whole upsert call failed outright, then
id in the service failed-document list, then no document produced
upstream, else processed); the writes happen even when the upsert or
delete calls threw; and when the batch tracker write itself fails, the
items are retried individually.  The hypotheses record the caller
invariants that an item marked processed produced a document in this
batch and that item statuses are binary.
-/
theorem c4_tracking_status_precedence (documents : List (Option String))
    (deletes : List String) (emails : List Pipeline.EmailInfo)
    (put_out : Pipeline.PutOutcome) (delete_raises batch_mark_raises : Bool)
    (Hdoc : ∀ e ∈ emails, e.item_status = "processed" → (some e.email_id) ∈ documents)
    (Hs : ∀ e ∈ emails, e.item_status = "processed" ∨ e.item_status = "failed") :
    (∀ e ∈ emails,
      (e.email_id, Pipeline.claim_tracking_status documents put_out e) ∈
        (Pipeline._submit_document_batch documents deletes emails put_out delete_raises
          batch_mark_raises).tracker_writes) ∧
    (∀ w ∈ (Pipeline._submit_document_batch documents deletes emails put_out delete_raises
        batch_mark_raises).tracker_writes,
      ∃ e ∈ emails, w = (e.email_id, Pipeline.claim_tracking_status documents put_out e)) ∧
    (emails ≠ [] → batch_mark_raises = true →
      (Pipeline._submit_document_batch documents deletes emails put_out delete_raises
        batch_mark_raises).used_individual_fallback = true) := by
  have hmain : (Pipeline._submit_document_batch documents deletes emails put_out delete_raises
      batch_mark_raises).tracker_writes =
        emails.map (fun e => (e.email_id, Pipeline.claim_tracking_status documents put_out e)) ∨
      (Pipeline._submit_document_batch documents deletes emails put_out delete_raises
      batch_mark_raises).tracker_writes =
        emails.map (fun e => (e.email_id, Pipeline.claim_tracking_status documents put_out e)) ++
        emails.map (fun e => (e.email_id, Pipeline.claim_tracking_status documents put_out e)) := by
    by_cases h0 : (documents.length + deletes.length == 0) = true
    · have hD : documents = [] := by
        rw [Nat.beq_eq_true_eq] at h0
        have hl : documents.length = 0 := by omega
        exact List.length_eq_zero.mp hl
      have hL : deletes = [] := by
        rw [Nat.beq_eq_true_eq] at h0
        have hl : deletes.length = 0 := by omega
        exact List.length_eq_zero.mp hl
      subst hD
      subst hL
      by_cases hE : emails.isEmpty
      · have hEnil : emails = [] := by
          cases emails with
          | nil => rfl
          | cons a l => simp at hE
        subst hEnil
        left
        simp [Pipeline._submit_document_batch]
      · have hEf : emails.isEmpty = false := by
          rw [Bool.not_eq_true] at hE
          exact hE
        have hfail : ∀ e ∈ emails, e.item_status = "failed" := by
          intro e he
          rcases Hs e he with hp | hf
          · exact absurd (Hdoc e he hp) (by simp)
          · exact hf
        have hclaim : ∀ e ∈ emails,
            Pipeline.claim_tracking_status [] put_out e = "failed" := by
          intro e he
          unfold Pipeline.claim_tracking_status Pipeline.claim_upsert_call_failed
            Pipeline.claim_service_failed_list
          simp [hfail e he]
        by_cases hbmr : batch_mark_raises = true
        · left
          unfold Pipeline._submit_document_batch
          simp only [List.length_nil, Nat.add_zero, beq_self_eq_true, if_true, hEf,
            Bool.false_eq_true, if_false, hbmr]
          unfold Pipeline._mark_emails_individually
          apply List.map_congr_left
          intro e he
          simp [hclaim e he]
        · right
          have hbmrf : batch_mark_raises = false := by
            rw [Bool.not_eq_true] at hbmr
            exact hbmr
          unfold Pipeline._submit_document_batch
          simp only [List.length_nil, Nat.add_zero, beq_self_eq_true, if_true, hEf,
            Bool.false_eq_true, if_false, hbmrf]
          have hone : Pipeline._mark_emails_in_dynamodb emails [] false =
              emails.map (fun e =>
                (e.email_id, Pipeline.claim_tracking_status [] put_out e)) := by
            unfold Pipeline._mark_emails_in_dynamodb
            apply List.map_congr_left
            intro e he
            rw [hclaim e he]
            unfold Pipeline.final_mark_status
            simp [hfail e he]
          rw [hone]
    · have h0f : (documents.length + deletes.length == 0) = false := by
        rw [Bool.not_eq_true] at h0
        exact h0
      left
      unfold Pipeline._submit_document_batch
      simp only [h0f, Bool.false_eq_true, if_false]
      by_cases hE : emails.isEmpty
      · have hEnil : emails = [] := by
          cases emails with
          | nil => rfl
          | cons a l => simp at hE
        subst hEnil
        simp
      · have hEf : emails.isEmpty = false := by
          rw [Bool.not_eq_true] at hE
          exact hE
        simp only [hEf, Bool.false_eq_true, if_false]
        by_cases hbmr : batch_mark_raises = true
        · simp only [hbmr, if_true]
          rw [mark_individually_eq_batch]
          unfold Pipeline._mark_emails_in_dynamodb
          apply List.map_congr_left
          intro e _
          rw [final_status_eq_claim]
        · have hbmrf : batch_mark_raises = false := by
            rw [Bool.not_eq_true] at hbmr
            exact hbmr
          simp only [hbmrf, Bool.false_eq_true, if_false]
          unfold Pipeline._mark_emails_in_dynamodb
          apply List.map_congr_left
          intro e _
          rw [final_status_eq_claim]
  refine ⟨?_, ?_, ?_⟩
  · intro e he
    rcases hmain with hm | hm
    · rw [hm]
      exact List.mem_map.mpr ⟨e, he, rfl⟩
    · rw [hm]
      exact List.mem_append_left _ (List.mem_map.mpr ⟨e, he, rfl⟩)
  · intro w hw
    rcases hmain with hm | hm
    · rw [hm] at hw
      obtain ⟨e, he, hwe⟩ := List.mem_map.mp hw
      exact ⟨e, he, hwe.symm⟩
    · rw [hm] at hw
      rcases List.mem_append.mp hw with hw1 | hw1
      · obtain ⟨e, he, hwe⟩ := List.mem_map.mp hw1
        exact ⟨e, he, hwe.symm⟩
      · obtain ⟨e, he, hwe⟩ := List.mem_map.mp hw1
        exact ⟨e, he, hwe.symm⟩
  · intro hEne hbmr
    have hEf : emails.isEmpty = false := by
      cases emails with
      | nil => exact absurd rfl hEne
      | cons a l => rfl
    by_cases h0 : (documents.length + deletes.length == 0) = true
    · have hD : documents = [] := by
        rw [Nat.beq_eq_true_eq] at h0
        have hl : documents.length = 0 := by omega
        exact List.length_eq_zero.mp hl
      have hL : deletes = [] := by
        rw [Nat.beq_eq_true_eq] at h0
        have hl : deletes.length = 0 := by omega
        exact List.length_eq_zero.mp hl
      subst hD
      subst hL
      unfold Pipeline._submit_document_batch
      simp [hEf, hbmr]
    · have h0f : (documents.length + deletes.length == 0) = false := by
        rw [Bool.not_eq_true] at h0
        exact h0
      unfold Pipeline._submit_document_batch
      simp [h0f, hEf, hbmr]

/-- Witness for C4 at a concrete input: one document d1 that the service
rejects and one item d2 with no document, with the delete call and the
batch tracker write both raising; the individual fallback runs. -/
theorem c4_tracking_status_precedence_witness :
    (Pipeline._submit_document_batch [some "d1"] []
      [{ email_id := "d1", folder_name := "Inbox", item_status := "processed",
         account_email := "a@x.com" },
       { email_id := "d2", folder_name := "Inbox", item_status := "failed",
         account_email := "a@x.com" }]
      (Pipeline.PutOutcome.ok ["d1"]) true true).used_individual_fallback = true :=
  (c4_tracking_status_precedence [some "d1"] []
    [{ email_id := "d1", folder_name := "Inbox", item_status := "processed",
       account_email := "a@x.com" },
     { email_id := "d2", folder_name := "Inbox", item_status := "failed",
       account_email := "a@x.com" }]
    (Pipeline.PutOutcome.ok ["d1"]) true true (by decide) (by decide)).2.2
    (by decide) rfl

/--
Claim C3 (code bug): with tracked ids {A,B,C,D} and live ids {B,C} the
orphan set difference is computed correctly as {A,D} in one batch of at
most 10 and the index deletion is issued for exactly those ids; but the
tracker deletion loop calls delete_email_record with three arguments
against the one-parameter client in src, so _delete_documents_and_records
raises TypeError internally, returns False, no tracker record is removed,
and reconciliation returns deletedCount 0 instead of 2.  The error-abort
half of the claim holds: when collecting live ids raises, nothing is
deleted for the folder and 0 is returned.
-/
theorem c3_reconcile_folder_eval :
    (let tr : Tracking.TrackingTable :=
      [{ email_id := "A", folder_name := "Inbox", datetime_created := "", processed_at := "",
         status := "processed", account_email := "a@x.com", attempt_count := 1 },
       { email_id := "B", folder_name := "Inbox", datetime_created := "", processed_at := "",
         status := "processed", account_email := "a@x.com", attempt_count := 1 },
       { email_id := "C", folder_name := "Inbox", datetime_created := "", processed_at := "",
         status := "processed", account_email := "a@x.com", attempt_count := 1 },
       { email_id := "D", folder_name := "Inbox", datetime_created := "", processed_at := "",
         status := "processed", account_email := "a@x.com", attempt_count := 1 }]
    let r := Pipeline._find_and_cleanup_folder_orphans "delta"
      (some ["A", "B", "C", "D"]) (some (Except.ok ["B", "C"]))
      "a@x.com" "Inbox" true tr
    r.index_deleted = ["A", "D"] ∧ r.deleted_count = 0 ∧ r.tracker = tr ∧
      ¬ (r.deleted_count = 2)) ∧
    (∀ (tr : Tracking.TrackingTable) (pids : List String),
      (Pipeline._find_and_cleanup_folder_orphans "delta" (some pids)
        (some (Except.error ())) "a@x.com" "Inbox" true tr).deleted_count = 0 ∧
      (Pipeline._find_and_cleanup_folder_orphans "delta" (some pids)
        (some (Except.error ())) "a@x.com" "Inbox" true tr).index_deleted = [] ∧
      (Pipeline._find_and_cleanup_folder_orphans "delta" (some pids)
        (some (Except.error ())) "a@x.com" "Inbox" true tr).tracker = tr) := by
  constructor
  · decide
  · intro tr pids
    refine ⟨rfl, rfl, rfl⟩

theorem conflict_loop_shape (starts : Nat → QB.StartCall) (stops : Nat → Bool) :
    ∀ (n sc st : Nat), ∃ bs : List Bool,
      (QB.conflict_loop starts stops n sc st).2 = bs.flatMap QB.block_of ∧
      bs.length ≤ n := by
  intro n
  induction n with
  | zero =>
    intro sc st
    exact ⟨[], rfl, by simp⟩
  | succ n ih =>
    intro sc st
    unfold QB.conflict_loop
    by_cases hs : stops st = true
    · simp only [hs, if_true]
      cases hcall : starts sc with
      | ok j =>
        exact ⟨[true], by simp [QB.block_of], by simp⟩
      | okNoId =>
        exact ⟨[true], by simp [QB.block_of], by simp⟩
      | otherError =>
        exact ⟨[true], by simp [QB.block_of], by simp⟩
      | conflict =>
        by_cases hn : (n == 0) = true
        · refine ⟨[true], ?_, by simp⟩
          simp [hn, QB.block_of]
        · have hnf : (n == 0) = false := by
            rw [Bool.not_eq_true] at hn
            exact hn
          simp only [hnf, Bool.false_eq_true, if_false]
          obtain ⟨bs, h1, h2⟩ := ih (sc + 1) (st + 1)
          refine ⟨true :: bs, ?_, by simp; omega⟩
          simp [QB.block_of, h1]
    · have hsf : stops st = false := by
        rw [Bool.not_eq_true] at hs
        exact hs
      simp only [hsf, Bool.false_eq_true, if_false]
      by_cases hn : (n == 0) = true
      · refine ⟨[false], ?_, by simp⟩
        simp [hn, QB.block_of]
      · have hnf : (n == 0) = false := by
          rw [Bool.not_eq_true] at hn
          exact hn
        simp only [hnf, Bool.false_eq_true, if_false]
        obtain ⟨bs, h1, h2⟩ := ih sc (st + 1)
        refine ⟨false :: bs, ?_, by simp; omega⟩
        simp [QB.block_of, h1]

theorem poll_for_stop_bound (ps : Nat → List QB.Job) :
    ∀ (n i : Nat), (QB.poll_for_stop ps i n).2 ≤ n := by
  intro n
  induction n with
  | zero => intro i; simp [QB.poll_for_stop]
  | succ n ih =>
    intro i
    unfold QB.poll_for_stop
    by_cases h : ((ps i).filter (fun j => QB.is_running_status j.job_status)).isEmpty = true
    · simp [h]
    · have hf : ((ps i).filter (fun j => QB.is_running_status j.job_status)).isEmpty = false := by
        rw [Bool.not_eq_true] at h
        exact h
      simp only [hf, Bool.false_eq_true, if_false]
      have := ih (i + 1)
      omega

/--
Claim C9: on a conflict ("already syncing") start error, auto-resolution
disabled fails immediately with no retry and no stop cycle; enabled, the
whole run consists of the first start request followed by at most
maxConflictRetries loop blocks, each either a failed stop cycle alone or
a successful stop-and-wait cycle immediately followed by the start retry,
so every retry is preceded by its own stop-wait cycle; and one
_stop_existing_sync_jobs cycle issues exactly one stop request per
running job in the listed history and polls at most
maxWait/interval = 12 times.
-/
theorem c9_conflict_stop_retry (starts : Nat → QB.StartCall) (stops : Nat → Bool)
    (m : Nat) (has_running : Bool) (jobs : List QB.Job) (errs : Nat → QB.StopErr)
    (ps : Nat → List QB.Job) (hconf : starts 0 = QB.StartCall.conflict) :
    ((QB.start_sync_job false m has_running starts stops).1 = none ∧
      ((QB.start_sync_job false m has_running starts stops).2 = [QB.RunEvent.startReq] ∨
       (QB.start_sync_job false m has_running starts stops).2 = [])) ∧
    (∃ bs : List Bool, bs.length ≤ m ∧
      (QB.start_sync_job true m has_running starts stops).2 =
        QB.RunEvent.startReq :: bs.flatMap QB.block_of) ∧
    ((QB._stop_existing_sync_jobs jobs errs ps).stop_requests =
      (jobs.filter (fun j => QB.is_running_status j.job_status)).length ∧
     (QB._stop_existing_sync_jobs jobs errs ps).polls ≤ QB.max_poll_count) := by
  refine ⟨?_, ?_, ?_⟩
  · unfold QB.start_sync_job
    by_cases hr : has_running = true
    · simp [hr]
    · have hrf : has_running = false := by
        rw [Bool.not_eq_true] at hr
        exact hr
      simp [hrf, hconf]
  · unfold QB.start_sync_job
    simp only [Bool.not_true, Bool.and_false, Bool.false_eq_true, if_false, hconf]
    obtain ⟨bs, h1, h2⟩ := conflict_loop_shape starts stops m 1 0
    exact ⟨bs, h2, by simp [h1]⟩
  · unfold QB._stop_existing_sync_jobs
    by_cases hrun : (jobs.filter (fun j => QB.is_running_status j.job_status)).isEmpty = true
    · have : jobs.filter (fun j => QB.is_running_status j.job_status) = [] := by
        cases hfe : jobs.filter (fun j => QB.is_running_status j.job_status) with
        | nil => rfl
        | cons a l => rw [hfe] at hrun; simp at hrun
      simp [hrun, this, QB.max_poll_count]
    · have hrf : (jobs.filter (fun j => QB.is_running_status j.job_status)).isEmpty = false := by
        rw [Bool.not_eq_true] at hrun
        exact hrun
      simp only [hrf, Bool.false_eq_true, if_false]
      by_cases hsc : 0 < (List.range
          (jobs.filter (fun j => QB.is_running_status j.job_status)).length).countP
          (fun k => !(errs k == QB.StopErr.hard))
      · simp only [hsc, if_true]
        exact ⟨trivial, poll_for_stop_bound ps QB.max_poll_count 0⟩
      · simp only [hsc, if_false]
        exact ⟨trivial, by simp⟩

/-- Witness for C9 at a concrete input: the first start call conflicts,
every stop cycle succeeds, and three retries are allowed. -/
theorem c9_conflict_stop_retry_witness :
    (QB.start_sync_job false 3 false
      (fun k => if k == 0 then QB.StartCall.conflict else QB.StartCall.ok "j2")
      (fun _ => true)).1 = none ∧
    (QB._stop_existing_sync_jobs [{ execution_id := "j1", job_status := "SYNCING" }]
      (fun _ => QB.StopErr.accepted) (fun _ => [])).stop_requests = 1 :=
  ⟨(c9_conflict_stop_retry
      (fun k => if k == 0 then QB.StartCall.conflict else QB.StartCall.ok "j2")
      (fun _ => true) 3 false [{ execution_id := "j1", job_status := "SYNCING" }]
      (fun _ => QB.StopErr.accepted) (fun _ => []) rfl).1.1,
   ((c9_conflict_stop_retry
      (fun k => if k == 0 then QB.StartCall.conflict else QB.StartCall.ok "j2")
      (fun _ => true) 3 false [{ execution_id := "j1", job_status := "SYNCING" }]
      (fun _ => QB.StopErr.accepted) (fun _ => []) rfl).2.2).1⟩

theorem sub_filter_eq_countP_not (l : List String) (fails : String → Bool) :
    l.length - (l.filter fails).length = l.countP (fun i => !(fails i)) := by
  induction l with
  | nil => rfl
  | cons x xs ih =>
    by_cases h : fails x = true
    · simp only [List.filter_cons, h, if_true, List.length_cons, List.countP_cons]
      simp [h]
      omega
    · have hf : fails x = false := by
        rw [Bool.not_eq_true] at h
        exact h
      have hle := List.length_filter_le fails xs
      simp only [List.filter_cons, hf, Bool.false_eq_true, if_false, List.length_cons,
        List.countP_cons]
      simp [hf]
      omega

theorem flush_delta_eq (docs : List String) (fails : String → Bool) :
    Pipeline.flush_delta docs fails = docs.countP (fun i => !(fails i)) := by
  unfold Pipeline.flush_delta Pipeline._submit_document_batch
  cases docs with
  | nil => rfl
  | cons x xs =>
    have hsub := sub_filter_eq_countP_not (x :: xs) fails
    simp only [List.length_cons] at hsub
    simp only [List.map_cons, List.length_cons, List.length_map, List.length_nil]
    simp [hsub]

theorem submit_delta_ok (docs : List (Option String)) (emails : List Pipeline.EmailInfo)
    (failed : List String) :
    (Pipeline._submit_document_batch docs [] emails (Pipeline.PutOutcome.ok failed)
      false false).processed_count_delta = docs.length - failed.length := by
  cases docs with
  | nil =>
    unfold Pipeline._submit_document_batch
    cases emails with
    | nil => simp
    | cons e es => simp
  | cons d ds =>
    unfold Pipeline._submit_document_batch
    simp

theorem seq_go_counts (cfg : Nat) (fails : String → Bool) :
    ∀ (l : List Pipeline.ItemOutcome) (buf : List String) (acc : Nat),
      Pipeline.seq_go cfg fails l buf acc =
        acc + buf.countP (fun i => !(fails i)) +
        l.countP (fun it => it.doc_created && !(fails it.item_id)) := by
  intro l
  induction l with
  | nil =>
    intro buf acc
    unfold Pipeline.seq_go
    rw [flush_delta_eq]
    simp
  | cons it rest ih =>
    intro buf acc
    unfold Pipeline.seq_go
    by_cases hc : it.doc_created = true
    · simp only [hc, if_true]
      by_cases hflush : cfg ≤ (buf ++ [it.item_id]).length
      · rw [if_pos hflush, ih, flush_delta_eq]
        by_cases hf : fails it.item_id = true
        · simp [List.countP_append, List.countP_cons, hc, hf]
        · have hff : fails it.item_id = false := by
            rw [Bool.not_eq_true] at hf
            exact hf
          simp [List.countP_append, List.countP_cons, hc, hff]
          omega
      · rw [if_neg hflush, ih]
        by_cases hf : fails it.item_id = true
        · simp [List.countP_append, List.countP_cons, hc, hf]
        · have hff : fails it.item_id = false := by
            rw [Bool.not_eq_true] at hf
            exact hf
          simp [List.countP_append, List.countP_cons, hc, hff]
          omega
    · have hcf : it.doc_created = false := by
        rw [Bool.not_eq_true] at hc
        exact hc
      simp only [hcf, Bool.false_eq_true, if_false]
      by_cases hflush : cfg ≤ buf.length
      · rw [if_pos hflush, ih, flush_delta_eq]
        simp [List.countP_cons, hcf]
      · rw [if_neg hflush, ih]
        simp [List.countP_cons, hcf]

theorem countP_created_split (items : List Pipeline.ItemOutcome) (fails : String → Bool) :
    items.countP (fun it => it.doc_created) =
      items.countP (fun it => it.doc_created && fails it.item_id) +
      items.countP (fun it => it.doc_created && !(fails it.item_id)) := by
  induction items with
  | nil => rfl
  | cons it rest ihr =>
    simp only [List.countP_cons]
    by_cases hc : it.doc_created = true
    · by_cases hf : fails it.item_id = true
      · simp only [hc, hf]
        simp [ihr]
        omega
      · have hff : fails it.item_id = false := by
          rw [Bool.not_eq_true] at hf
          exact hf
        simp only [hc, hff]
        simp [ihr]
        omega
    · have hcf : it.doc_created = false := by
        rw [Bool.not_eq_true] at hc
        exact hc
      simp only [hcf]
      simp [ihr]

theorem filterMap_some_field (l : List Pipeline.ItemOutcome) :
    l.filterMap (fun it => some it.item_id) = l.map (fun it => it.item_id) := by
  induction l with
  | nil => rfl
  | cons a t iht => simp [List.filterMap_cons, iht]

theorem process_email_batch_counts (items : List Pipeline.ItemOutcome)
    (fails : String → Bool) (folder account : String) :
    Pipeline._process_email_batch items fails folder account =
      items.countP (fun it => it.doc_created) +
      items.countP (fun it => it.doc_created && !(fails it.item_id)) := by
  unfold Pipeline._process_email_batch
  dsimp only
  rw [submit_delta_ok]
  have hfm : ((items.filter (fun it => it.doc_created)).map
      (fun it => some it.item_id)).filterMap id =
      (items.filter (fun it => it.doc_created)).map (fun it => it.item_id) := by
    rw [List.filterMap_map]
    exact filterMap_some_field (items.filter (fun it => it.doc_created))
  rw [hfm]
  have hA : ((items.filter (fun it => it.doc_created)).map
      (fun it => some it.item_id)).length = items.countP (fun it => it.doc_created) := by
    simp [List.countP_eq_length_filter]
  have hB : (((items.filter (fun it => it.doc_created)).map
      (fun it => it.item_id)).filter fails).length =
      items.countP (fun it => it.doc_created && fails it.item_id) := by
    rw [← List.countP_eq_length_filter, List.countP_map, List.countP_filter]
    apply List.countP_congr
    intro it _
    simp [Function.comp, Bool.and_comm]
  rw [hA, hB]
  have hsplit := countP_created_split items fails
  omega

/--
Claim C10: in threaded mode the run-wide processed counter is incremented
once per created document in the chunk worker and once more per
successfully submitted document by the aggregation inside the batch
submission, so one chunk adds creations plus successful submissions to
emails_processed_count, counting every successfully created and
submitted document twice; in sequential mode only the submission
aggregation runs, so the same document counts exactly once.
-/
theorem c10_processed_counter_double_count (items : List Pipeline.ItemOutcome)
    (fails : String → Bool) (folder account : String) (cfg : Nat) :
    Pipeline._process_email_batch items fails folder account =
      items.countP (fun it => it.doc_created) +
      items.countP (fun it => it.doc_created && !(fails it.item_id)) ∧
    Pipeline._process_emails_sequential cfg items fails =
      items.countP (fun it => it.doc_created && !(fails it.item_id)) := by
  refine ⟨process_email_batch_counts items fails folder account, ?_⟩
  unfold Pipeline._process_emails_sequential
  rw [seq_go_counts]
  simp
